import Mathlib

/-!
# Verification of `structuralcodes/development/corrosion.py`

Shallow embedding of the two public functions of the corrosion module,
`calculate_velocity_of_corrosion` and `calculate_minimum_area_after_corrosion`,
together with the nested Acklam approximation of the inverse standard-normal
CDF.  Python floats are modelled by exact real arithmetic (`ℝ`); every
`raise ValueError`/domain failure becomes an `Except.error` carrying the error
kind of the spec's taxonomy (and the exact message string where the source
raises a `ValueError` of its own).  The external collaborator
`_use_design_code(design_code)` is modelled by its result: an
`Option String` parameter holding the resolved active design code.
-/

open Real

/-- Error taxonomy of the spec, mapped one-to-one onto the raise sites of the
source: `configurationError` for the "design code is not set" raise,
`domainError` for the `p must be in (0,1)` raise inside the inverse CDF,
`mathDomainError` for CPython's `math domain error` (square root of a
negative number), `lookupError` for a failed dictionary lookup (unreachable
after validation), and `validationError msg` for every other `ValueError`,
carrying the exact message text of the source. -/
inductive CorrErr where
  | configurationError : CorrErr
  | domainError : CorrErr
  | mathDomainError : CorrErr
  | lookupError : CorrErr
  | validationError : String → CorrErr
deriving DecidableEq, Repr

/-- Message of the invalid `corrosion_type` raise. -/
def msgCorrosionType : String :=
  "The variable corrosion_type is not valid, either use \"carbonation_induced\" or \"chloride_induced\""

/-- Message of the invalid `exposure_class` raise for carbonation-induced corrosion. -/
def msgExposureCarb : String :=
  "The variable exposure_class is not valid for the current corrosion_type, either use \"Sheltered\" or \"Unsheltered\""

/-- Message of the invalid `exposure_class` raise for chloride-induced corrosion. -/
def msgExposureChlor : String :=
  "The variable exposure_class is not valid for the current corrosion_type, either use \"Wet\", \"Cyclic_dry_wet\", \"Airborn_seawater\", \"Submerged\" or \"Tidal_zone\""

/-- Message of the invalid `fractile` raise. -/
def msgFractile : String :=
  "The value of fractile is not valid, use a value between 0 and 1 (both excluded)"

/-- Message of the non-positive `Pcorr_rep` raise. -/
def msgPcorr : String :=
  "The calculated value of Pcorr_rep is less or equal to 0 because the value of fractile is too low. Try using a higher value of fractile. Note that using a low value of fractile could lead to an underestimention of the effect of corrosion."

/-- Message of the "both modes supplied" raise. -/
def msgTooMany : String :=
  "Too many input arguments have been given to the function. Either use mass_loss or velocity_of_corrosion + time_of_corrosion."

/-- Message of the "only one of velocity/time supplied" raise. -/
def msgMissing : String :=
  "velocity_of_corrosion or time_of_corrosion is missing."

/-- Message of the `pitting_factor < 1` raise. -/
def msgPitting : String :=
  "The pitting_factor must be greater than or equal to 1."

/-- Message of the `uncorroded_area < 0` raise. -/
def msgAreaNeg : String :=
  "The uncorroded_area must be non-negative."

/-- Message of the `mass_loss` range raise. -/
def msgMassRange : String :=
  "mass_loss must be between 0 and 1."

/-- Message of the `velocity_of_corrosion < 0` raise. -/
def msgVelNeg : String :=
  "velocity_of_corrosion must be non-negative."

/-- Message of the `time_of_corrosion < 0` raise. -/
def msgTimeNeg : String :=
  "time_of_corrosion must be non-negative."

/-- Message of the negative-residual raise in mass-loss mode (the source
concatenates two adjacent string literals, fusing `corroded_minimum_area`
with `lower`). -/
def msgMassResidual : String :=
  "The combination of mass_loss and pitting_factor gave a corroded_minimum_arealower than 0. Consider changing these values."

/-- Message of the "pit exceeds the bar" raise in velocity/time mode. -/
def msgVTPit : String :=
  "The combination of velocity_of_corrosion and time_of_corrosion gave a corroded_minimum_arealower than 0. Consider changing these values."

/-- Message of the negative-residual raise in velocity/time mode. -/
def msgVTResidual : String :=
  "The combination of velocity_of_corrosion and time_of_corrosion and pitting_factorgave a corroded_minimum_area lower than 0. Consider changing these values."

/-- `ValidCorrosionTypes` of the source. -/
def validCorrosionTypes : List String := ["carbonation_induced", "chloride_induced"]

/-- `ValidExposureClassesForCarbonationInducedCorrosion` of the source. -/
def validCarbClasses : List String := ["Sheltered", "Unsheltered"]

/-- `ValidExposureClassesForChlorideInducedCorrosion` of the source. -/
def validChlorClasses : List String :=
  ["Wet", "Cyclic_dry_wet", "Airborn_seawater", "Submerged", "Tidal_zone"]

/-- The `table_mean` dictionaries of the source, one partial map over both
corrosion types (`none` models a `KeyError`, unreachable after validation). -/
def table_mean : String → Option String → Option ℚ
  | "carbonation_induced", some "Sheltered" => some 2
  | "carbonation_induced", some "Unsheltered" => some 5
  | "chloride_induced", some "Wet" => some 4
  | "chloride_induced", some "Cyclic_dry_wet" => some 30
  | "chloride_induced", some "Airborn_seawater" => some 30
  | "chloride_induced", some "Submerged" => some 4
  | "chloride_induced", some "Tidal_zone" => some 50
  | _, _ => none

/-- The `table_sd` dictionaries of the source. -/
def table_sd : String → Option String → Option ℚ
  | "carbonation_induced", some "Sheltered" => some 3
  | "carbonation_induced", some "Unsheltered" => some 1
  | "chloride_induced", some "Wet" => some 6
  | "chloride_induced", some "Cyclic_dry_wet" => some 40
  | "chloride_induced", some "Airborn_seawater" => some 40
  | "chloride_induced", some "Submerged" => some 7
  | "chloride_induced", some "Tidal_zone" => some 100
  | _, _ => none

/-- Break-point `plow` of the Acklam approximation. -/
def plow : ℝ := 0.02425

/-- Break-point `phigh = 1 - plow` of the Acklam approximation. -/
noncomputable def phigh : ℝ := 1 - plow

/-- Tail formula of the Acklam approximation (coefficient lists `c` and `d`
of the source), as a function of `q`. -/
noncomputable def acklam_tail (q : ℝ) : ℝ :=
  (((((-7.784894002430293e-03 * q + -3.223964580411365e-01) * q +
      -2.400758277161838e+00) * q + -2.549732539343734e+00) * q +
      4.374664141464968e+00) * q + 2.938163982698783e+00) /
    ((((7.784695709041462e-03 * q + 3.224671290700398e-01) * q +
      2.445134137142996e+00) * q + 3.754408661907416e+00) * q + 1)

/-- Central formula of the Acklam approximation (coefficient lists `a` and
`b` of the source), as a function of `q = p - 0.5` with `r = q²`. -/
noncomputable def acklam_central (q : ℝ) : ℝ :=
  (((((-3.969683028665376e+01 * (q * q) + 2.209460984245205e+02) * (q * q) +
      -2.759285104469687e+02) * (q * q) + 1.383577518672690e+02) * (q * q) +
      -3.066479806614716e+01) * (q * q) + 2.506628277459239e+00) * q /
    (((((-5.447609879822406e+01 * (q * q) + 1.615858368580409e+02) * (q * q) +
      -1.556989798598866e+02) * (q * q) + 6.680131188771972e+01) * (q * q) +
      -1.328068155288572e+01) * (q * q) + 1)

/-- The branch selection of `inverse_normal_cdf` after its domain guard:
tail formula below `plow`, mirrored tail formula above `phigh`, central
formula in between. -/
noncomputable def acklam (p : ℝ) : ℝ :=
  if p < plow then acklam_tail (Real.sqrt (-2 * Real.log p))
  else if phigh < p then -acklam_tail (Real.sqrt (-2 * Real.log (1 - p)))
  else acklam_central (p - 0.5)

/-- `inverse_normal_cdf` of the source: domain guard (raising the
`p must be in (0,1)` ValueError, the spec's `DomainError`) followed by the
Acklam branches. -/
noncomputable def inverse_normal_cdf (p : ℝ) : Except CorrErr ℝ :=
  if p ≤ 0 ∨ 1 ≤ p then .error .domainError else .ok (acklam p)

/-- The `exposure_class` defaulting block of `calculate_velocity_of_corrosion`:
an unset class becomes `Unsheltered` for carbonation-induced and
`Cyclic_dry_wet` for chloride-induced corrosion (for an invalid
`corrosion_type` the block leaves the class unset, but that case is
unreachable: the type is validated first). -/
def defaultExposure (corrosion_type : String) (exposure_class : Option String) :
    Option String :=
  match exposure_class with
  | none =>
      if corrosion_type = "carbonation_induced" then some "Unsheltered"
      else if corrosion_type = "chloride_induced" then some "Cyclic_dry_wet"
      else none
  | some e => some e

open Classical in
/-- `calculate_velocity_of_corrosion` of the source.  The parameter `_code`
is the value returned by the external `_use_design_code(design_code)`
collaborator (the function only tests it against `None`). -/
noncomputable def calculate_velocity_of_corrosion (corrosion_type : String)
    (exposure_class : Option String) (fractile : ℝ) (_code : Option String) :
    Except CorrErr ℝ :=
  if _code = none then .error .configurationError
  else if corrosion_type ∉ validCorrosionTypes then
    .error (.validationError msgCorrosionType)
  else
    let ec := defaultExposure corrosion_type exposure_class
    if corrosion_type = "carbonation_induced" ∧ ec ∉ validCarbClasses.map some then
      .error (.validationError msgExposureCarb)
    else if corrosion_type = "chloride_induced" ∧ ec ∉ validChlorClasses.map some then
      .error (.validationError msgExposureChlor)
    else if fractile ≤ 0 ∨ 1 ≤ fractile then .error (.validationError msgFractile)
    else
      match table_mean corrosion_type ec, table_sd corrosion_type ec with
      | some mean_value, some sd_value =>
          match inverse_normal_cdf fractile with
          | .error e => .error e
          | .ok z =>
              let Pcorr_rep : ℝ := (mean_value : ℝ) + z * (sd_value : ℝ)
              if Pcorr_rep ≤ 0 then .error (.validationError msgPcorr)
              else .ok Pcorr_rep
      | _, _ => .error .lookupError

open Classical in
/-- `calculate_minimum_area_after_corrosion` of the source.  The parameter
`_code` is the value returned by `_use_design_code(design_code)`.  The
function first evaluates `sqrt(uncorroded_area/pi)` (CPython raises a
`math domain error` there when the argument is negative, before any other
check), then validates, then computes in one of the two modes; when neither
mode is supplied it falls through to the trailing bare `return`, modelled as
`.ok none`. -/
noncomputable def calculate_minimum_area_after_corrosion (uncorroded_area : ℝ)
    (pitting_factor : ℝ) (mass_loss velocity_of_corrosion time_of_corrosion : Option ℝ)
    (_code : Option String) : Except CorrErr (Option ℝ) :=
  if uncorroded_area / π < 0 then .error .mathDomainError
  else
    let uncorroded_diameter := Real.sqrt (uncorroded_area / π) * 2
    if _code = none then .error .configurationError
    else if mass_loss ≠ none ∧
        (velocity_of_corrosion ≠ none ∨ time_of_corrosion ≠ none) then
      .error (.validationError msgTooMany)
    else if (velocity_of_corrosion ≠ none ∧ time_of_corrosion = none) ∨
        (velocity_of_corrosion = none ∧ time_of_corrosion ≠ none) then
      .error (.validationError msgMissing)
    else if pitting_factor < 1 then .error (.validationError msgPitting)
    else if uncorroded_area < 0 then .error (.validationError msgAreaNeg)
    else if mass_loss.elim False (fun m => m < 0 ∨ 1 < m) then
      .error (.validationError msgMassRange)
    else if velocity_of_corrosion.elim False (fun v => v < 0) then
      .error (.validationError msgVelNeg)
    else if time_of_corrosion.elim False (fun t => t < 0) then
      .error (.validationError msgTimeNeg)
    else
      match mass_loss with
      | some m =>
          let corroded_average_area := uncorroded_area * (1 - m)
          if corroded_average_area / π < 0 then .error .mathDomainError
          else
            let corroded_average_pit :=
              uncorroded_diameter / 2 - Real.sqrt (corroded_average_area / π)
            let corroded_maximum_pit := pitting_factor * corroded_average_pit
            let corroded_minimum_area :=
              (uncorroded_diameter / 2 - corroded_maximum_pit) ^ 2 * π
            if uncorroded_diameter / 2 - corroded_maximum_pit < 0 then
              .error (.validationError msgMassResidual)
            else .ok (some corroded_minimum_area)
      | none =>
          match velocity_of_corrosion, time_of_corrosion with
          | some v, some t =>
              let v' := v / 1000
              let corroded_average_pit := v' * t
              if uncorroded_diameter < corroded_average_pit then
                .error (.validationError msgVTPit)
              else
                let corroded_maximum_pit := pitting_factor * corroded_average_pit
                let corroded_minimum_area :=
                  (uncorroded_diameter / 2 - corroded_maximum_pit) ^ 2 * π
                if uncorroded_diameter / 2 - corroded_maximum_pit < 0 then
                  .error (.validationError msgVTResidual)
                else .ok (some corroded_minimum_area)
          | _, _ => .ok none

/-! ## Helper lemmas -/

lemma inverse_normal_cdf_of_mem (p : ℝ) (h0 : 0 < p) (h1 : p < 1) :
    inverse_normal_cdf p = .ok (acklam p) := by
  unfold inverse_normal_cdf
  rw [if_neg]
  push_neg
  exact ⟨h0, h1⟩

lemma acklam_half : acklam (0.5 : ℝ) = 0 := by
  rw [acklam, if_neg (by norm_num [plow]), if_neg (by norm_num [phigh, plow])]
  norm_num [acklam_central]

/-- Evaluation of `calculate_velocity_of_corrosion` once every validation
step passes: the value is `mean + z·sd`, guarded by the final positivity
check. -/
lemma velocity_eval (ct : String) (ec : Option String) (f : ℝ) (code : String)
    (μ σ : ℚ) (hct : ct ∈ validCorrosionTypes)
    (hcarb : ¬(ct = "carbonation_induced" ∧
      defaultExposure ct ec ∉ validCarbClasses.map some))
    (hchlor : ¬(ct = "chloride_induced" ∧
      defaultExposure ct ec ∉ validChlorClasses.map some))
    (hf0 : 0 < f) (hf1 : f < 1)
    (htm : table_mean ct (defaultExposure ct ec) = some μ)
    (hts : table_sd ct (defaultExposure ct ec) = some σ) :
    calculate_velocity_of_corrosion ct ec f (some code) =
      if (μ : ℝ) + acklam f * (σ : ℝ) ≤ 0 then .error (.validationError msgPcorr)
      else .ok ((μ : ℝ) + acklam f * (σ : ℝ)) := by
  simp only [calculate_velocity_of_corrosion]
  rw [if_neg (by simp), if_neg (not_not_intro hct), if_neg hcarb, if_neg hchlor,
    if_neg (by push_neg; exact ⟨hf0, hf1⟩), htm, hts,
    inverse_normal_cdf_of_mem f hf0 hf1]

lemma velocity_at_half (ct : String) (ec : Option String) (code : String)
    (μ σ : ℚ) (hct : ct ∈ validCorrosionTypes)
    (hcarb : ¬(ct = "carbonation_induced" ∧
      defaultExposure ct ec ∉ validCarbClasses.map some))
    (hchlor : ¬(ct = "chloride_induced" ∧
      defaultExposure ct ec ∉ validChlorClasses.map some))
    (htm : table_mean ct (defaultExposure ct ec) = some μ)
    (hts : table_sd ct (defaultExposure ct ec) = some σ) (hμ : 0 < μ) :
    calculate_velocity_of_corrosion ct ec (0.5 : ℝ) (some code) = .ok (μ : ℝ) := by
  have hval : (μ : ℝ) + acklam 0.5 * (σ : ℝ) = (μ : ℝ) := by
    rw [acklam_half]; ring
  rw [velocity_eval ct ec 0.5 code μ σ hct hcarb hchlor (by norm_num) (by norm_num)
    htm hts, hval, if_neg]
  push_neg
  exact_mod_cast hμ

/-- C2: at the median fractile the estimator returns exactly the tabulated
mean for each of the seven valid (corrosion_type, exposure_class) pairs,
since the central Acklam branch gives z = 0 at p = 0.5. -/
theorem fractile_half_returns_table_mean :
    (calculate_velocity_of_corrosion "carbonation_induced" (some "Sheltered") 0.5
      (some "MC2020") = .ok 2) ∧
    (calculate_velocity_of_corrosion "carbonation_induced" (some "Unsheltered") 0.5
      (some "MC2020") = .ok 5) ∧
    (calculate_velocity_of_corrosion "chloride_induced" (some "Wet") 0.5
      (some "MC2020") = .ok 4) ∧
    (calculate_velocity_of_corrosion "chloride_induced" (some "Cyclic_dry_wet") 0.5
      (some "MC2020") = .ok 30) ∧
    (calculate_velocity_of_corrosion "chloride_induced" (some "Airborn_seawater") 0.5
      (some "MC2020") = .ok 30) ∧
    (calculate_velocity_of_corrosion "chloride_induced" (some "Submerged") 0.5
      (some "MC2020") = .ok 4) ∧
    (calculate_velocity_of_corrosion "chloride_induced" (some "Tidal_zone") 0.5
      (some "MC2020") = .ok 50) := by
  refine ⟨?_, ?_, ?_, ?_, ?_, ?_, ?_⟩
  · simpa using velocity_at_half "carbonation_induced" (some "Sheltered") "MC2020" 2 3
      (by decide) (by decide) (by decide) (by decide) (by decide) (by norm_num)
  · simpa using velocity_at_half "carbonation_induced" (some "Unsheltered") "MC2020" 5 1
      (by decide) (by decide) (by decide) (by decide) (by decide) (by norm_num)
  · simpa using velocity_at_half "chloride_induced" (some "Wet") "MC2020" 4 6
      (by decide) (by decide) (by decide) (by decide) (by decide) (by norm_num)
  · simpa using velocity_at_half "chloride_induced" (some "Cyclic_dry_wet") "MC2020" 30 40
      (by decide) (by decide) (by decide) (by decide) (by decide) (by norm_num)
  · simpa using velocity_at_half "chloride_induced" (some "Airborn_seawater") "MC2020" 30 40
      (by decide) (by decide) (by decide) (by decide) (by decide) (by norm_num)
  · simpa using velocity_at_half "chloride_induced" (some "Submerged") "MC2020" 4 7
      (by decide) (by decide) (by decide) (by decide) (by decide) (by norm_num)
  · simpa using velocity_at_half "chloride_induced" (some "Tidal_zone") "MC2020" 50 100
      (by decide) (by decide) (by decide) (by decide) (by decide) (by norm_num)

/-- C6: under the earlier validation checks, the estimator fails with the
non-positive-result ValidationError exactly when `mean + z·sd ≤ 0`, and every
value it returns is strictly positive. -/
theorem velocity_positive_iff (ct : String) (ec : Option String) (f : ℝ)
    (code : String) (μ σ : ℚ) (hct : ct ∈ validCorrosionTypes)
    (hcarb : ¬(ct = "carbonation_induced" ∧
      defaultExposure ct ec ∉ validCarbClasses.map some))
    (hchlor : ¬(ct = "chloride_induced" ∧
      defaultExposure ct ec ∉ validChlorClasses.map some))
    (hf0 : 0 < f) (hf1 : f < 1)
    (htm : table_mean ct (defaultExposure ct ec) = some μ)
    (hts : table_sd ct (defaultExposure ct ec) = some σ) :
    (calculate_velocity_of_corrosion ct ec f (some code) =
        .error (.validationError msgPcorr) ↔ (μ : ℝ) + acklam f * (σ : ℝ) ≤ 0) ∧
    ∀ v : ℝ, calculate_velocity_of_corrosion ct ec f (some code) = .ok v → 0 < v := by
  rw [velocity_eval ct ec f code μ σ hct hcarb hchlor hf0 hf1 htm hts]
  constructor
  · by_cases hle : (μ : ℝ) + acklam f * (σ : ℝ) ≤ 0
    · simp [hle]
    · simp [hle]
  · intro v hv
    by_cases hle : (μ : ℝ) + acklam f * (σ : ℝ) ≤ 0
    · rw [if_pos hle] at hv
      exact absurd hv (by simp)
    · rw [if_neg hle] at hv
      injection hv with h
      rw [← h]
      exact lt_of_not_le hle

theorem velocity_positive_iff_witness :
    calculate_velocity_of_corrosion "carbonation_induced" (some "Sheltered") 0.5
        (some "MC2020") = .error (.validationError msgPcorr) ↔
      ((2 : ℚ) : ℝ) + acklam 0.5 * ((3 : ℚ) : ℝ) ≤ 0 :=
  (velocity_positive_iff "carbonation_induced" (some "Sheltered") 0.5 "MC2020" 2 3
    (by decide) (by decide) (by decide) (by norm_num) (by norm_num)
    (by decide) (by decide)).1

/-- C7: the estimator rejects any fractile outside (0,1) with the fractile
ValidationError; `inverse_normal_cdf` fails with the DomainError exactly on
p ≤ 0 or p ≥ 1; and no run of the estimator ever surfaces that DomainError,
since the fractile is validated before delegation. -/
theorem fractile_validation :
    (∀ (ct : String) (ec : Option String) (f : ℝ) (code : String),
      ct ∈ validCorrosionTypes →
      ¬(ct = "carbonation_induced" ∧
        defaultExposure ct ec ∉ validCarbClasses.map some) →
      ¬(ct = "chloride_induced" ∧
        defaultExposure ct ec ∉ validChlorClasses.map some) →
      f ≤ 0 ∨ 1 ≤ f →
      calculate_velocity_of_corrosion ct ec f (some code) =
        .error (.validationError msgFractile)) ∧
    (∀ p : ℝ, inverse_normal_cdf p = .error .domainError ↔ p ≤ 0 ∨ 1 ≤ p) ∧
    (∀ (ct : String) (ec : Option String) (f : ℝ) (c : Option String),
      calculate_velocity_of_corrosion ct ec f c ≠ .error .domainError) := by
  refine ⟨?_, ?_, ?_⟩
  · intro ct ec f code hct hcarb hchlor hf
    simp only [calculate_velocity_of_corrosion]
    rw [if_neg (by simp), if_neg (not_not_intro hct), if_neg hcarb, if_neg hchlor,
      if_pos hf]
  · intro p
    unfold inverse_normal_cdf
    by_cases h : p ≤ 0 ∨ 1 ≤ p
    · simp [h]
    · simp [h]
  · intro ct ec f c
    simp only [calculate_velocity_of_corrosion]
    split
    · simp
    split
    · simp
    split
    · simp
    split
    · simp
    split
    · simp
    rename_i h5
    push_neg at h5
    rw [inverse_normal_cdf_of_mem f h5.1 h5.2]
    split
    · split
      · rename_i e heq
        simp at heq
      · split
        · simp
        · simp
    · simp

theorem fractile_validation_witness :
    calculate_velocity_of_corrosion "carbonation_induced" (some "Sheltered") 0
        (some "MC2020") = .error (.validationError msgFractile) :=
  fractile_validation.1 "carbonation_induced" (some "Sheltered") 0 "MC2020"
    (by decide) (by decide) (by decide) (Or.inl le_rfl)

/-- C8: an unset exposure class defaults to Unsheltered (carbonation) or
Cyclic_dry_wet (chloride); any explicitly supplied class outside the allowed
set of the given corrosion type is rejected with the ValidationError whose
message text enumerates the valid options for that type. -/
theorem exposure_default_and_validation :
    (∀ (f : ℝ) (code : String),
      calculate_velocity_of_corrosion "carbonation_induced" none f (some code) =
        calculate_velocity_of_corrosion "carbonation_induced" (some "Unsheltered") f
          (some code)) ∧
    (∀ (f : ℝ) (code : String),
      calculate_velocity_of_corrosion "chloride_induced" none f (some code) =
        calculate_velocity_of_corrosion "chloride_induced" (some "Cyclic_dry_wet") f
          (some code)) ∧
    (∀ (e : String) (f : ℝ) (code : String), e ∉ validCarbClasses →
      calculate_velocity_of_corrosion "carbonation_induced" (some e) f (some code) =
        .error (.validationError msgExposureCarb)) ∧
    (∀ (e : String) (f : ℝ) (code : String), e ∉ validChlorClasses →
      calculate_velocity_of_corrosion "chloride_induced" (some e) f (some code) =
        .error (.validationError msgExposureChlor)) ∧
    (msgExposureCarb =
      "The variable exposure_class is not valid for the current corrosion_type, either use \"" ++
        "Sheltered" ++ "\" or \"" ++ "Unsheltered" ++ "\"") ∧
    (msgExposureChlor =
      "The variable exposure_class is not valid for the current corrosion_type, either use \"" ++
        "Wet" ++ "\", \"" ++ "Cyclic_dry_wet" ++ "\", \"" ++ "Airborn_seawater" ++
        "\", \"" ++ "Submerged" ++ "\" or \"" ++ "Tidal_zone" ++ "\"") := by
  refine ⟨?_, ?_, ?_, ?_, by decide, by decide⟩
  · intro f code
    rfl
  · intro f code
    rfl
  · intro e f code he
    simp only [calculate_velocity_of_corrosion]
    rw [if_neg (by simp), if_neg (by decide),
      if_pos ⟨by trivial, by simpa [defaultExposure, validCarbClasses] using he⟩]
  · intro e f code he
    simp only [calculate_velocity_of_corrosion]
    rw [if_neg (by simp), if_neg (by decide), if_neg (by simp),
      if_pos ⟨by trivial, by simpa [defaultExposure, validChlorClasses] using he⟩]

theorem exposure_default_and_validation_witness :
    calculate_velocity_of_corrosion "carbonation_induced" (some "Wet") 0.5
        (some "MC2020") = .error (.validationError msgExposureCarb) :=
  exposure_default_and_validation.2.2.1 "Wet" 0.5 "MC2020" (by decide)

lemma acklam_central_neg (q : ℝ) : acklam_central (-q) = -acklam_central q := by
  unfold acklam_central
  ring

lemma plow_lt_phigh : plow < phigh := by norm_num [plow, phigh]

/-- The branch structure of the Acklam approximation is exactly
antisymmetric about 1/2, for every real argument. -/
lemma acklam_antisym (p : ℝ) : acklam (1 - p) = -acklam p := by
  unfold acklam
  by_cases h1 : p < plow
  · have hh : phigh < 1 - p := by simp only [phigh]; linarith
    rw [if_pos h1, if_neg (by push_neg; linarith [plow_lt_phigh]), if_pos hh,
      sub_sub_cancel]
  · by_cases h2 : phigh < p
    · have hl : 1 - p < plow := by simp only [phigh] at h2; linarith
      rw [if_neg h1, if_pos h2, if_pos hl, neg_neg]
    · have ha : ¬(1 - p < plow) := by
        simp only [phigh] at h2; push_neg at h2 ⊢; linarith
      have hb : ¬(phigh < 1 - p) := by
        simp only [phigh]; push_neg at h1 ⊢; linarith
      rw [if_neg h1, if_neg h2, if_neg ha, if_neg hb,
        show (1 - p - 0.5 : ℝ) = -(p - 0.5) by ring, acklam_central_neg]

/-- C9: on the open unit interval the inverse-CDF approximation is
antisymmetric about 1/2: `inverse_normal_cdf (1-p)` succeeds with exactly
the negation of the value of `inverse_normal_cdf p`. -/
theorem inverse_cdf_antisymmetric (p : ℝ) (h0 : 0 < p) (h1 : p < 1) :
    inverse_normal_cdf (1 - p) =
      Except.map (fun x : ℝ => -x) (inverse_normal_cdf p) := by
  rw [inverse_normal_cdf_of_mem p h0 h1,
    inverse_normal_cdf_of_mem (1 - p) (by linarith) (by linarith),
    acklam_antisym]
  rfl

theorem inverse_cdf_antisymmetric_witness :
    inverse_normal_cdf (1 - 0.25) =
      Except.map (fun x : ℝ => -x) (inverse_normal_cdf 0.25) :=
  inverse_cdf_antisymmetric 0.25 (by norm_num) (by norm_num)

/-- Evaluation of `calculate_minimum_area_after_corrosion` in mass-loss mode
once every validation step passes: only the final residual-radius guard
remains. -/
lemma area_mass_eval (A pf m : ℝ) (code : String) (hA : 0 ≤ A) (hpf : 1 ≤ pf)
    (hm0 : 0 ≤ m) (hm1 : m ≤ 1) :
    calculate_minimum_area_after_corrosion A pf (some m) none none (some code) =
      if Real.sqrt (A / π) * 2 / 2 -
          pf * (Real.sqrt (A / π) * 2 / 2 - Real.sqrt (A * (1 - m) / π)) < 0 then
        .error (.validationError msgMassResidual)
      else
        .ok (some ((Real.sqrt (A / π) * 2 / 2 -
          pf * (Real.sqrt (A / π) * 2 / 2 - Real.sqrt (A * (1 - m) / π))) ^ 2 * π)) := by
  have c1 : ¬(A / π < 0) := not_lt.2 (div_nonneg hA Real.pi_pos.le)
  have c5 : ¬(pf < 1) := not_lt.2 hpf
  have c6 : ¬(A < 0) := not_lt.2 hA
  have c7 : ¬(m < 0 ∨ 1 < m) := by push_neg; exact ⟨hm0, hm1⟩
  have c10 : ¬(A * (1 - m) / π < 0) :=
    not_lt.2 (div_nonneg (mul_nonneg hA (by linarith)) Real.pi_pos.le)
  simp only [calculate_minimum_area_after_corrosion]
  rw [if_neg c1, if_neg (by simp), if_neg (by simp), if_neg (by simp), if_neg c5,
    if_neg c6, if_neg (by simpa using c7), if_neg (by simp), if_neg (by simp),
    if_neg c10]

/-- Evaluation of `calculate_minimum_area_after_corrosion` in velocity/time
mode once every validation step passes: only the pit-size guard and the
residual-radius guard remain. -/
lemma area_vel_eval (A pf v t : ℝ) (code : String) (hA : 0 ≤ A) (hpf : 1 ≤ pf)
    (hv : 0 ≤ v) (ht : 0 ≤ t) :
    calculate_minimum_area_after_corrosion A pf none (some v) (some t)
        (some code) =
      if Real.sqrt (A / π) * 2 < v / 1000 * t then
        .error (.validationError msgVTPit)
      else if Real.sqrt (A / π) * 2 / 2 - pf * (v / 1000 * t) < 0 then
        .error (.validationError msgVTResidual)
      else
        .ok (some ((Real.sqrt (A / π) * 2 / 2 - pf * (v / 1000 * t)) ^ 2 * π)) := by
  have c1 : ¬(A / π < 0) := not_lt.2 (div_nonneg hA Real.pi_pos.le)
  have c5 : ¬(pf < 1) := not_lt.2 hpf
  have c6 : ¬(A < 0) := not_lt.2 hA
  simp only [calculate_minimum_area_after_corrosion]
  rw [if_neg c1, if_neg (by simp), if_neg (by simp), if_neg (by simp), if_neg c5,
    if_neg c6, if_neg (by simp), if_neg (by simpa using not_lt.2 hv),
    if_neg (by simpa using not_lt.2 ht)]

/-- Evaluation of `calculate_minimum_area_after_corrosion` when no
calculation mode is supplied: every validation step passes and the function
falls through to the trailing bare `return`. -/
lemma area_no_mode_eval (A pf : ℝ) (code : String) (hA : 0 ≤ A) (hpf : 1 ≤ pf) :
    calculate_minimum_area_after_corrosion A pf none none none (some code) =
      .ok none := by
  have c1 : ¬(A / π < 0) := not_lt.2 (div_nonneg hA Real.pi_pos.le)
  have c5 : ¬(pf < 1) := not_lt.2 hpf
  have c6 : ¬(A < 0) := not_lt.2 hA
  simp only [calculate_minimum_area_after_corrosion]
  rw [if_neg c1, if_neg (by simp), if_neg (by simp), if_neg (by simp), if_neg c5,
    if_neg c6, if_neg (by simp), if_neg (by simp), if_neg (by simp)]

/-- C1: in mass-loss mode, with non-negative residual radius, the function
returns `π·(d/2 − pf·(d/2 − √(A(1−m)/π)))²` for `d = 2·√(A/π)`; for
`pf = 1` this equals `A·(1−m)`, and for `m = 0` it equals `A`. -/
theorem mass_loss_formula (A pf m : ℝ) (code : String) (hA : 0 ≤ A)
    (hpf : 1 ≤ pf) (hm0 : 0 ≤ m) (hm1 : m ≤ 1)
    (hres : 0 ≤ 2 * Real.sqrt (A / π) / 2 -
      pf * (2 * Real.sqrt (A / π) / 2 - Real.sqrt (A * (1 - m) / π))) :
    (calculate_minimum_area_after_corrosion A pf (some m) none none (some code) =
      .ok (some (π * (2 * Real.sqrt (A / π) / 2 -
        pf * (2 * Real.sqrt (A / π) / 2 - Real.sqrt (A * (1 - m) / π))) ^ 2))) ∧
    (pf = 1 →
      calculate_minimum_area_after_corrosion A pf (some m) none none (some code) =
        .ok (some (A * (1 - m)))) ∧
    (m = 0 →
      calculate_minimum_area_after_corrosion A pf (some m) none none (some code) =
        .ok (some A)) := by
  have h2 : Real.sqrt (A / π) * 2 / 2 = 2 * Real.sqrt (A / π) / 2 := by ring
  refine ⟨?_, ?_, ?_⟩
  · rw [area_mass_eval A pf m code hA hpf hm0 hm1, h2, if_neg (not_lt.2 hres),
      mul_comm]
  · intro hpf1
    subst hpf1
    rw [area_mass_eval A 1 m code hA le_rfl hm0 hm1,
      show Real.sqrt (A / π) * 2 / 2 -
          1 * (Real.sqrt (A / π) * 2 / 2 - Real.sqrt (A * (1 - m) / π)) =
          Real.sqrt (A * (1 - m) / π) from by ring,
      if_neg (not_lt.2 (Real.sqrt_nonneg _)),
      Real.sq_sqrt (div_nonneg (mul_nonneg hA (by linarith)) Real.pi_pos.le),
      div_mul_cancel₀ _ Real.pi_ne_zero]
  · intro hm
    subst hm
    rw [area_mass_eval A pf 0 code hA hpf le_rfl (by norm_num),
      show (A * (1 - 0) / π : ℝ) = A / π from by ring,
      show Real.sqrt (A / π) * 2 / 2 -
          pf * (Real.sqrt (A / π) * 2 / 2 - Real.sqrt (A / π)) =
          Real.sqrt (A / π) from by ring,
      if_neg (not_lt.2 (Real.sqrt_nonneg _)),
      Real.sq_sqrt (div_nonneg hA Real.pi_pos.le),
      div_mul_cancel₀ _ Real.pi_ne_zero]

theorem mass_loss_formula_witness :
    calculate_minimum_area_after_corrosion 0 1 (some 0) none none (some "MC2020") =
      .ok (some (π * (2 * Real.sqrt (0 / π) / 2 -
        1 * (2 * Real.sqrt (0 / π) / 2 - Real.sqrt (0 * (1 - 0) / π))) ^ 2)) :=
  (mass_loss_formula 0 1 0 "MC2020" le_rfl le_rfl le_rfl (by norm_num)
    (by simp)).1

/-- C4: in velocity/time mode the function rejects a pit deeper than the bar
diameter, rejects a negative residual radius, and otherwise returns
`π·(d/2 − pf·(v/1000)·t)²`; in particular `compute(A,1,v=0,t=0) = A` and for
a 16 mm bar (`A = 64π`) `compute(A,1,v=100,t=10) = (7/8)²·A`. -/
theorem velocity_time_formula (A pf v t : ℝ) (code : String) (hA : 0 ≤ A)
    (hpf : 1 ≤ pf) (hv : 0 ≤ v) (ht : 0 ≤ t) :
    (2 * Real.sqrt (A / π) < v / 1000 * t →
      calculate_minimum_area_after_corrosion A pf none (some v) (some t)
        (some code) = .error (.validationError msgVTPit)) ∧
    (v / 1000 * t ≤ 2 * Real.sqrt (A / π) →
      2 * Real.sqrt (A / π) / 2 - pf * (v / 1000) * t < 0 →
      calculate_minimum_area_after_corrosion A pf none (some v) (some t)
        (some code) = .error (.validationError msgVTResidual)) ∧
    (v / 1000 * t ≤ 2 * Real.sqrt (A / π) →
      0 ≤ 2 * Real.sqrt (A / π) / 2 - pf * (v / 1000) * t →
      calculate_minimum_area_after_corrosion A pf none (some v) (some t)
        (some code) =
        .ok (some (π * (2 * Real.sqrt (A / π) / 2 - pf * (v / 1000) * t) ^ 2))) ∧
    (calculate_minimum_area_after_corrosion A 1 none (some 0) (some 0)
        (some code) = .ok (some A)) ∧
    (calculate_minimum_area_after_corrosion (64 * π) 1 none (some 100) (some 10)
        (some code) = .ok (some ((7 / 8) ^ 2 * (64 * π)))) := by
  refine ⟨?_, ?_, ?_, ?_, ?_⟩
  · intro hlt
    rw [area_vel_eval A pf v t code hA hpf hv ht, if_pos (by linarith)]
  · intro hle hneg
    rw [area_vel_eval A pf v t code hA hpf hv ht, if_neg (not_lt.2 (by linarith)),
      if_pos (by
        rw [show Real.sqrt (A / π) * 2 / 2 - pf * (v / 1000 * t) =
          2 * Real.sqrt (A / π) / 2 - pf * (v / 1000) * t from by ring]
        exact hneg)]
  · intro hle hge
    rw [area_vel_eval A pf v t code hA hpf hv ht, if_neg (not_lt.2 (by linarith)),
      if_neg (not_lt.2 (by
        rw [show Real.sqrt (A / π) * 2 / 2 - pf * (v / 1000 * t) =
          2 * Real.sqrt (A / π) / 2 - pf * (v / 1000) * t from by ring]
        exact hge))]
    simp only [Except.ok.injEq, Option.some.injEq]
    ring
  · rw [area_vel_eval A 1 0 0 code hA le_rfl le_rfl le_rfl,
      show ((0 : ℝ) / 1000 * 0) = 0 from by norm_num,
      if_neg (not_lt.2 (by positivity)),
      show Real.sqrt (A / π) * 2 / 2 - 1 * 0 = Real.sqrt (A / π) from by ring,
      if_neg (not_lt.2 (Real.sqrt_nonneg _)),
      Real.sq_sqrt (div_nonneg hA Real.pi_pos.le),
      div_mul_cancel₀ _ Real.pi_ne_zero]
  · rw [area_vel_eval (64 * π) 1 100 10 code (by positivity) le_rfl (by norm_num)
        (by norm_num),
      show (64 * π / π : ℝ) = 64 from by
        rw [mul_div_assoc, div_self Real.pi_ne_zero, mul_one],
      show Real.sqrt (64 : ℝ) = 8 from by
        rw [show (64 : ℝ) = 8 ^ 2 from by norm_num,
          Real.sqrt_sq (by norm_num : (0 : ℝ) ≤ 8)],
      if_neg (by norm_num), if_neg (by norm_num)]
    simp only [Except.ok.injEq, Option.some.injEq]
    ring

theorem velocity_time_formula_witness :
    calculate_minimum_area_after_corrosion (64 * π) 1 none (some 100) (some 10)
        (some "MC2020") = .ok (some ((7 / 8) ^ 2 * (64 * π))) :=
  (velocity_time_formula 0 1 0 0 "MC2020" le_rfl le_rfl le_rfl le_rfl).2.2.2.2

section
open Classical

/-- The body of `calculate_minimum_area_after_corrosion` with its local
`let` bindings inlined (definitional equality, by zeta reduction). -/
lemma area_unfold (A pf : ℝ) (ml v t : Option ℝ) (c : Option String) :
    calculate_minimum_area_after_corrosion A pf ml v t c =
      if A / π < 0 then .error .mathDomainError
      else if c = none then .error .configurationError
      else if ml ≠ none ∧ (v ≠ none ∨ t ≠ none) then
        .error (.validationError msgTooMany)
      else if (v ≠ none ∧ t = none) ∨ (v = none ∧ t ≠ none) then
        .error (.validationError msgMissing)
      else if pf < 1 then .error (.validationError msgPitting)
      else if A < 0 then .error (.validationError msgAreaNeg)
      else if ml.elim False (fun m => m < 0 ∨ 1 < m) then
        .error (.validationError msgMassRange)
      else if v.elim False (fun x => x < 0) then
        .error (.validationError msgVelNeg)
      else if t.elim False (fun x => x < 0) then
        .error (.validationError msgTimeNeg)
      else
        match ml with
        | some m =>
            if A * (1 - m) / π < 0 then .error .mathDomainError
            else if Real.sqrt (A / π) * 2 / 2 -
                pf * (Real.sqrt (A / π) * 2 / 2 - Real.sqrt (A * (1 - m) / π)) <
                  0 then
              .error (.validationError msgMassResidual)
            else
              .ok (some ((Real.sqrt (A / π) * 2 / 2 -
                pf * (Real.sqrt (A / π) * 2 / 2 -
                  Real.sqrt (A * (1 - m) / π))) ^ 2 * π))
        | none =>
            match v, t with
            | some vv, some tt =>
                if Real.sqrt (A / π) * 2 < vv / 1000 * tt then
                  .error (.validationError msgVTPit)
                else if Real.sqrt (A / π) * 2 / 2 - pf * (vv / 1000 * tt) <
                    0 then
                  .error (.validationError msgVTResidual)
                else
                  .ok (some ((Real.sqrt (A / π) * 2 / 2 -
                    pf * (vv / 1000 * tt)) ^ 2 * π))
            | _, _ => .ok none := rfl

end

/-- C10: every numeric value returned by
`calculate_minimum_area_after_corrosion` lies between 0 and the uncorroded
area: corrosion never increases the cross-sectional area and never produces
a negative one. -/
theorem result_bounded (A pf : ℝ) (ml v t : Option ℝ) (c : Option String)
    (r : ℝ)
    (h : calculate_minimum_area_after_corrosion A pf ml v t c = .ok (some r)) :
    0 ≤ r ∧ r ≤ A := by
  rw [area_unfold] at h
  by_cases hc1 : A / π < 0
  · rw [if_pos hc1] at h; exact Except.noConfusion h
  rw [if_neg hc1] at h
  by_cases hc2 : c = none
  · rw [if_pos hc2] at h; exact Except.noConfusion h
  rw [if_neg hc2] at h
  by_cases hc3 : ml ≠ none ∧ (v ≠ none ∨ t ≠ none)
  · rw [if_pos hc3] at h; exact Except.noConfusion h
  rw [if_neg hc3] at h
  by_cases hc4 : (v ≠ none ∧ t = none) ∨ (v = none ∧ t ≠ none)
  · rw [if_pos hc4] at h; exact Except.noConfusion h
  rw [if_neg hc4] at h
  by_cases hc5 : pf < 1
  · rw [if_pos hc5] at h; exact Except.noConfusion h
  rw [if_neg hc5] at h
  by_cases hc6 : A < 0
  · rw [if_pos hc6] at h; exact Except.noConfusion h
  rw [if_neg hc6] at h
  by_cases hc7 : ml.elim False (fun m => m < 0 ∨ 1 < m)
  · rw [if_pos hc7] at h; exact Except.noConfusion h
  rw [if_neg hc7] at h
  by_cases hc8 : v.elim False (fun x => x < 0)
  · rw [if_pos hc8] at h; exact Except.noConfusion h
  rw [if_neg hc8] at h
  by_cases hc9 : t.elim False (fun x => x < 0)
  · rw [if_pos hc9] at h; exact Except.noConfusion h
  rw [if_neg hc9] at h
  have hA0 : 0 ≤ A := not_lt.mp hc6
  have hpf1 : 1 ≤ pf := not_lt.mp hc5
  have hs2 : Real.sqrt (A / π) ^ 2 = A / π :=
    Real.sq_sqrt (div_nonneg hA0 Real.pi_pos.le)
  split at h
  · -- mass-loss branch
    rename_i m
    simp only [Option.elim] at hc7
    push_neg at hc7
    split at h
    · exact Except.noConfusion h
    rename_i hc10
    split at h
    · exact Except.noConfusion h
    rename_i hres
    rw [Except.ok.injEq, Option.some.injEq] at h
    subst h
    have hres0 : 0 ≤ Real.sqrt (A / π) * 2 / 2 -
        pf * (Real.sqrt (A / π) * 2 / 2 - Real.sqrt (A * (1 - m) / π)) :=
      not_lt.mp hres
    have hnum : A * (1 - m) ≤ A := by nlinarith [hc7.1, hA0]
    have hss : Real.sqrt (A * (1 - m) / π) ≤ Real.sqrt (A / π) :=
      Real.sqrt_le_sqrt ((div_le_div_iff_of_pos_right Real.pi_pos).mpr hnum)
    have hpit : 0 ≤ pf *
        (Real.sqrt (A / π) * 2 / 2 - Real.sqrt (A * (1 - m) / π)) :=
      mul_nonneg (by linarith) (by linarith)
    have hRle : Real.sqrt (A / π) * 2 / 2 -
        pf * (Real.sqrt (A / π) * 2 / 2 - Real.sqrt (A * (1 - m) / π)) ≤
        Real.sqrt (A / π) := by linarith
    have hsq : (Real.sqrt (A / π) * 2 / 2 -
        pf * (Real.sqrt (A / π) * 2 / 2 - Real.sqrt (A * (1 - m) / π))) ^ 2 ≤
        A / π := by
      calc (Real.sqrt (A / π) * 2 / 2 -
            pf * (Real.sqrt (A / π) * 2 / 2 - Real.sqrt (A * (1 - m) / π))) ^ 2 ≤
          Real.sqrt (A / π) ^ 2 := pow_le_pow_left₀ hres0 hRle 2
        _ = A / π := hs2
    refine ⟨mul_nonneg (sq_nonneg _) Real.pi_pos.le, ?_⟩
    calc (Real.sqrt (A / π) * 2 / 2 -
          pf * (Real.sqrt (A / π) * 2 / 2 - Real.sqrt (A * (1 - m) / π))) ^ 2 * π ≤
        A / π * π := mul_le_mul_of_nonneg_right hsq Real.pi_pos.le
      _ = A := div_mul_cancel₀ A Real.pi_ne_zero
  · -- velocity/time or no-mode branch
    split at h
    · -- both velocity and time supplied
      rename_i vv tt
      simp only [Option.elim] at hc8 hc9
      push_neg at hc8 hc9
      split at h
      · exact Except.noConfusion h
      rename_i hcp
      split at h
      · exact Except.noConfusion h
      rename_i hres
      rw [Except.ok.injEq, Option.some.injEq] at h
      subst h
      have hres0 : 0 ≤ Real.sqrt (A / π) * 2 / 2 - pf * (vv / 1000 * tt) :=
        not_lt.mp hres
      have hpit : 0 ≤ pf * (vv / 1000 * tt) :=
        mul_nonneg (by linarith)
          (mul_nonneg (div_nonneg hc8 (by norm_num)) hc9)
      have hRle : Real.sqrt (A / π) * 2 / 2 - pf * (vv / 1000 * tt) ≤
          Real.sqrt (A / π) := by linarith
      have hsq : (Real.sqrt (A / π) * 2 / 2 - pf * (vv / 1000 * tt)) ^ 2 ≤
          A / π := by
        calc (Real.sqrt (A / π) * 2 / 2 - pf * (vv / 1000 * tt)) ^ 2 ≤
            Real.sqrt (A / π) ^ 2 := pow_le_pow_left₀ hres0 hRle 2
          _ = A / π := hs2
      refine ⟨mul_nonneg (sq_nonneg _) Real.pi_pos.le, ?_⟩
      calc (Real.sqrt (A / π) * 2 / 2 - pf * (vv / 1000 * tt)) ^ 2 * π ≤
          A / π * π := mul_le_mul_of_nonneg_right hsq Real.pi_pos.le
        _ = A := div_mul_cancel₀ A Real.pi_ne_zero
    · exact Option.noConfusion (Except.ok.inj h)

theorem result_bounded_witness : (0 : ℝ) ≤ π ∧ (π : ℝ) ≤ π :=
  result_bounded π 1 (some 0) none none (some "MC2020") π (by
    rw [area_mass_eval π 1 0 "MC2020" Real.pi_pos.le le_rfl le_rfl zero_le_one,
      div_self Real.pi_ne_zero,
      show (π * (1 - 0) / π : ℝ) = 1 from by
        rw [mul_comm, mul_div_assoc, div_self Real.pi_ne_zero]; norm_num,
      Real.sqrt_one]
    norm_num)

/-- C3 (amended): supplying both calculation modes, or only one of the
velocity/time pair, fails with the corresponding ValidationError; supplying
neither mode does not raise — the call falls through to the trailing bare
`return` and yields no numeric result. -/
theorem mode_selection_validation (A pf : ℝ) (ml v t : Option ℝ)
    (code : String) (hA : 0 ≤ A) :
    (ml ≠ none → (v ≠ none ∨ t ≠ none) →
      calculate_minimum_area_after_corrosion A pf ml v t (some code) =
        .error (.validationError msgTooMany)) ∧
    (ml = none → ((v ≠ none ∧ t = none) ∨ (v = none ∧ t ≠ none)) →
      calculate_minimum_area_after_corrosion A pf ml v t (some code) =
        .error (.validationError msgMissing)) ∧
    (1 ≤ pf →
      calculate_minimum_area_after_corrosion A pf none none none (some code) =
        .ok none) := by
  have c1 : ¬(A / π < 0) := not_lt.2 (div_nonneg hA Real.pi_pos.le)
  refine ⟨?_, ?_, ?_⟩
  · intro hml hvt
    rw [area_unfold, if_neg c1, if_neg (by simp), if_pos ⟨hml, hvt⟩]
  · intro hml hvt
    rw [area_unfold, if_neg c1, if_neg (by simp), if_neg (by simp [hml]),
      if_pos hvt]
  · intro hpf
    exact area_no_mode_eval A pf code hA hpf

theorem mode_selection_validation_witness :
    calculate_minimum_area_after_corrosion 0 1 (some 0) (some 1) none
        (some "MC2020") = .error (.validationError msgTooMany) :=
  (mode_selection_validation 0 1 (some 0) (some 1) none "MC2020" le_rfl).1
    (by simp) (Or.inl (by simp))

/-- C3 (counterexample to the claim as stated): with no mode supplied and
every other validation passing, the call does not fail with a
ValidationError — it returns successfully, carrying no numeric result. -/
theorem mode_selection_counterexample :
    calculate_minimum_area_after_corrosion 0 1 none none none (some "MC2020") =
      .ok none :=
  area_no_mode_eval 0 1 "MC2020" le_rfl le_rfl

/-- C5 (amended): when the design-code lookup yields none, the estimator
always fails with the ConfigurationError first, and the area calculator does
so whenever `uncorroded_area ≥ 0`; for a negative area its initial
`sqrt(uncorroded_area/π)` evaluation fails first instead. -/
theorem configuration_error_first :
    (∀ (ct : String) (ec : Option String) (f : ℝ),
      calculate_velocity_of_corrosion ct ec f none =
        .error .configurationError) ∧
    (∀ (A pf : ℝ) (ml v t : Option ℝ), 0 ≤ A →
      calculate_minimum_area_after_corrosion A pf ml v t none =
        .error .configurationError) := by
  constructor
  · intro ct ec f
    simp only [calculate_velocity_of_corrosion]
    rw [if_pos trivial]
  · intro A pf ml v t hA
    rw [area_unfold, if_neg (not_lt.2 (div_nonneg hA Real.pi_pos.le)),
      if_pos rfl]

theorem configuration_error_first_witness :
    calculate_velocity_of_corrosion "chloride_induced" none 0.5 none =
        .error .configurationError ∧
      calculate_minimum_area_after_corrosion 0 1 none none none none =
        .error .configurationError :=
  ⟨configuration_error_first.1 "chloride_induced" none 0.5,
    configuration_error_first.2 0 1 none none none le_rfl⟩

/-- C5 (counterexample to the claim as stated): for a negative
`uncorroded_area` the area calculator evaluates `sqrt(uncorroded_area/π)`
before resolving the design code, so with no active code it fails with the
math domain error of the square root, not with the ConfigurationError. -/
theorem configuration_error_counterexample :
    calculate_minimum_area_after_corrosion (-1) 1 none none none none =
        .error .mathDomainError ∧
      CorrErr.mathDomainError ≠ CorrErr.configurationError := by
  constructor
  · rw [area_unfold,
      if_pos (div_neg_of_neg_of_pos (by norm_num) Real.pi_pos)]
  · decide
